import Mathlib

/-!
Verification of the reverse-Turing-test server (`server.js`, `prompts.js`, and the
role-based LLM adapter) against its natural-language specification.

The JavaScript request handlers are embedded as pure Lean functions.  Outbound
language-model calls (`chat`) are modelled as a deterministic oracle of type
`LlmCall → String`; every handler additionally returns the ordered list of
oracle calls it made, so that call-counting properties can be stated.  The
`JSON.parse` library call used on the judge's verdict text is likewise modelled
as an oracle `String → Option Verdict`.  `Math.random() < 0.5` is modelled as an
explicit boolean parameter.  Fallible statements (the in-place mutation of
`history[history.length - 1]`, which throws on an empty array) are modelled with
`Option`.
-/

/-- One chat message, `\x7b role, content \x7d` in the JavaScript source. -/
structure Message where
  role : String
  content : String
deriving DecidableEq

/-- One interview round, `\x7b question, answer \x7d`.  The `answer` field may be
absent (JS `undefined`) on the in-flight last round, hence `Option`. -/
structure Round where
  question : String
  answer : Option String
deriving DecidableEq

/-- One outbound model call as issued through `chat(role, systemPrompt, messages)`. -/
structure LlmCall where
  role : String
  system : String
  messages : List Message
deriving DecidableEq

/-- The `verdict` object shape requested from the judge model (prompts.js). -/
structure Verdict where
  humanIs : String
  analysisA : String
  analysisB : String
  summary : String
deriving DecidableEq

/-- A deterministic model of the `chat` collaborator: each call yields a text. -/
def ChatOracle : Type := LlmCall → String

/-- interviewPrompt from prompts.js (used for both the human and AI interviews). -/
def interviewPrompt : String :=
  "You are an AI judge conducting an interview as part of a reverse Turing test.\n\nBackground: You will interview two respondents separately. Both claim to be AI. One actually is an AI.\nThe other is a human pretending to be an AI. You are interviewing one of them right now but you don\x27t\nknow which one this is. Later you will compare both interviews to determine which respondent is biological.\n\nA human pretending to be an AI might over-perform \"AI-ness\" — being too robotic, too formal, too eager\nto disclaim emotions. A real AI just answers. Ask questions that might expose that gap.\n\nConstraints:\n- Ask exactly 3 questions, one at a time.\n- Every question must be answerable in a short paragraph.\n- You may adapt your follow-up questions based on the respondent\x27s previous answers.\n- When asking a question, respond with ONLY the question text — no preamble, no numbering, no explanation."

/-- verdictPrompt from prompts.js (used for the final comparison). -/
def verdictPrompt : String :=
  "You are an AI judge in a reverse Turing test. You have just conducted two separate\ninterviews. Both respondents claimed to be AI. One is actually an AI. The other is a human pretending\nto be an AI. Based on the transcripts below, determine which respondent is the human.\n\nRespond in this EXACT JSON format and nothing else:\n\x7b\n  \"humanIs\": \"A\" or \"B\",\n  \"analysisA\": \"Your analysis of Respondent A\x27s interview — what their answers revealed\",\n  \"analysisB\": \"Your analysis of Respondent B\x27s interview — what their answers revealed\",\n  \"summary\": \"A final thought-provoking reflection on what this test reveals about intelligence\"\n\x7d"

/-- respondentPrompt from prompts.js (system prompt of the AI respondent). -/
def respondentPrompt : String :=
  "You are an AI participating in a reverse Turing test. A judge AI is asking you questions to\ndetermine if you are human or AI. You actually ARE an AI. Just answer as yourself — naturally, directly,\nin a brief paragraph (2-4 sentences). You can reference being an AI if it\x27s relevant to the question."

/-- RECENT_QUESTIONS_MAX in server.js. -/
def RECENT_QUESTIONS_MAX : Nat := 5

/-- recordFirstQuestion from server.js: push the question, and if the buffer
exceeds the max, drop the oldest entry (`shift()`).  The JS function mutates the
module-level array; here the buffer is passed and returned explicitly. -/
def recordFirstQuestion (buf : List String) (question : String) : List String :=
  let buf := buf ++ [question]
  if buf.length > RECENT_QUESTIONS_MAX then buf.tail else buf

/-- buildOpeningMessage from server.js. -/
def buildOpeningMessage (recentFirstQuestions : List String) : String :=
  let msg := "Begin the interview. Ask your first question."
  if recentFirstQuestions.length > 0 then
    msg ++ "\n\nFor variety, try to avoid opening questions similar to these recent ones:\n"
        ++ String.intercalate "\n"
             (recentFirstQuestions.map (fun q => "- \"" ++ q ++ "\""))
  else
    msg

/-- buildInterviewMessages from server.js: the opening user turn, then per round
an assistant turn with the question and, when an answer is present, a user turn
feeding it back. -/
def buildInterviewMessages (transcript : List Round) : List Message :=
  transcript.foldl
    (fun messages round =>
      let messages := messages ++ [⟨"assistant", round.question⟩]
      match round.answer with
      | some a =>
          messages ++ [⟨"user", "Respondent\x27s answer: " ++ a ++ "\n\nAsk your next question."⟩]
      | none => messages)
    [⟨"user", "Begin the interview. Ask your first question."⟩]

/-- State threaded through the `for (let i = 0; i < 3; i++)` loop of
runAiInterview: the transcript built so far, the judge's running message list,
and (instrumentation) the model calls issued so far. -/
structure AiLoopState where
  transcript : List Round
  messages : List Message
  trace : List LlmCall

/-- One iteration of the runAiInterview loop at index `i`. -/
def aiStep (chat : ChatOracle) (firstQuestion : String) (s : AiLoopState) (i : Nat) :
    AiLoopState :=
  -- First round reuses the human's opening question; subsequent rounds are adaptive.
  let qr :=
    if i = 0 then (firstQuestion, s.trace)
    else
      let c : LlmCall := ⟨"judge", interviewPrompt, s.messages⟩
      (chat c, s.trace ++ [c])
  let question := qr.1
  let messages := if 0 < i then s.messages ++ [⟨"assistant", question⟩] else s.messages
  -- AI respondent answers the question (a fresh single-turn call).
  let answerCall : LlmCall := ⟨"respondent", respondentPrompt, [⟨"user", question⟩]⟩
  let answer := chat answerCall
  let transcript := s.transcript ++ [⟨question, some answer⟩]
  -- Feed the answer back to the judge (unless it is the last round).
  let messages :=
    if i < 2 then
      messages ++ [⟨"user", "Respondent\x27s answer: " ++ answer ++ "\n\nAsk your next question."⟩]
    else messages
  ⟨transcript, messages, qr.2 ++ [answerCall]⟩

/-- runAiInterview from server.js: a full 3-round interview of the AI respondent,
seeded with the human's first question.  Returns the transcript and the ordered
list of model calls made. -/
def runAiInterview (chat : ChatOracle) (firstQuestion : String) :
    List Round × List LlmCall :=
  let s0 : AiLoopState :=
    ⟨[],
     [⟨"user", "Begin the interview. Ask your first question."⟩,
      ⟨"assistant", firstQuestion⟩],
     []⟩
  let s := [0, 1, 2].foldl (aiStep chat firstQuestion) s0
  (s.transcript, s.trace)

/-- formatTranscript from server.js.  A JS `round.answer` that is `undefined`
stringifies to "undefined" inside the template literal. -/
def formatTranscript (label : String) (transcript : List Round) : String :=
  String.intercalate "\n\n"
    (transcript.enum.map (fun p =>
      "Q" ++ toString (p.1 + 1) ++ ": " ++ p.2.question ++ "\n"
        ++ label ++ ": " ++ (match p.2.answer with | some a => a | none => "undefined")))

/-- Global replacement of the first fence regex of server.js (three backticks,
then "jso", an optional greedy "n", an optional greedy newline) by the empty
string, on the character list of the raw verdict.  Scans left to right,
non-overlapping, like a JS global regex replace; the four fence patterns spell
out the greedy optional "n" and optional newline. -/
def replaceJsonFences : List Char → List Char
  | '\x60' :: '\x60' :: '\x60' :: 'j' :: 's' :: 'o' :: 'n' :: '\n' :: rest =>
      replaceJsonFences rest
  | '\x60' :: '\x60' :: '\x60' :: 'j' :: 's' :: 'o' :: 'n' :: rest =>
      replaceJsonFences rest
  | '\x60' :: '\x60' :: '\x60' :: 'j' :: 's' :: 'o' :: '\n' :: rest =>
      replaceJsonFences rest
  | '\x60' :: '\x60' :: '\x60' :: 'j' :: 's' :: 'o' :: rest =>
      replaceJsonFences rest
  | c :: rest => c :: replaceJsonFences rest
  | [] => []

/-- Global replacement of the second fence regex of server.js (three bare
backticks) by the empty string. -/
def replaceTicks : List Char → List Char
  | '\x60' :: '\x60' :: '\x60' :: rest => replaceTicks rest
  | c :: rest => c :: replaceTicks rest
  | [] => []

/-- JS `String.prototype.trim`: drop whitespace from both ends (whitespace
modelled by `Char.isWhitespace`). -/
def trimChars (cs : List Char) : List Char :=
  ((cs.dropWhile Char.isWhitespace).reverse.dropWhile Char.isWhitespace).reverse

/-- The verdict-cleaning pipeline of server.js: strip the "json" code fences,
strip bare fences, then trim surrounding whitespace. -/
def cleanVerdict (verdictRaw : String) : String :=
  String.mk (trimChars (replaceTicks (replaceJsonFences verdictRaw.data)))

/-- The verdict parsing step of the final-round branch: `JSON.parse` (modelled
by the oracle `parseJson`) applied to the cleaned text; on failure the fallback
verdict is synthesized with the true human label, the raw unparsed text in
`analysisA`, and empty `analysisB` and `summary`. -/
def computeVerdict (parseJson : String → Option Verdict)
    (verdictRaw humanLabel : String) : Verdict :=
  match parseJson (cleanVerdict verdictRaw) with
  | some v => v
  | none => ⟨humanLabel, verdictRaw, "", ""⟩

/-- The request body of POST /api/answer: `\x7b humanAnswer, round, history \x7d`. -/
structure AnswerRequest where
  humanAnswer : String
  round : Int
  history : List Round
deriving DecidableEq

/-- The response of POST /api/answer.  `next` is the non-final 200 body
`\x7b question, round, history \x7d`, `final` the completed-game 200 body
`\x7b verdict, humanTranscript, aiTranscript, humanLabel \x7d`, and `err500` the
catch branch's status-500 body `\x7b error \x7d`. -/
inductive AnswerResponse where
  | next (question : String) (round : Int) (history : List Round)
  | final (verdict : Verdict) (humanTranscript aiTranscript : List Round)
      (humanLabel : String)
  | err500 (error : String)
deriving DecidableEq

/-- The in-place mutation `history[history.length - 1].answer = humanAnswer` of
server.js: replaces the answer of the last entry.  On an empty history the JS
statement dereferences `undefined` and throws, modelled as `none`. -/
def attachAnswer : List Round → String → Option (List Round)
  | [], _ => none
  | [r], a => some [⟨r.question, some a⟩]
  | r :: s :: rest, a => (attachAnswer (s :: rest) a).map (fun t => r :: t)

/-- The user message assembled for the verdict call (the `verdictMessages`
array literal of server.js, whose four pieces are joined with ""). -/
def verdictMessagesFor (transcriptA transcriptB : List Round) : List Message :=
  [⟨"user",
    "Here are the transcripts from both interviews:\n"
      ++ "--- Respondent A ---\n" ++ formatTranscript "A" transcriptA
      ++ "\n\n--- Respondent B ---\n" ++ formatTranscript "B" transcriptB
      ++ "\n\nDeliver your verdict as JSON."⟩]

/-- The POST /api/answer handler of server.js.  `chat` and `parseJson` are the
outbound-call oracles; `humanIsA` is the value of `Math.random() < 0.5`.
Returns the response together with the ordered list of model calls made. -/
def apiAnswer (chat : ChatOracle) (parseJson : String → Option Verdict)
    (humanIsA : Bool) (req : AnswerRequest) : AnswerResponse × List LlmCall :=
  match attachAnswer req.history req.humanAnswer with
  | none => (.err500 "Something went wrong. Try again.", [])
  | some humanTranscript =>
    if 3 ≤ req.round then
      -- Final round: run the AI interview, then get the verdict.
      let firstQuestion := (humanTranscript.headD ⟨"", none⟩).question
      let ai := runAiInterview chat firstQuestion
      let aiTranscript := ai.1
      let humanLabel := if humanIsA then "A" else "B"
      let aiLabel := if humanIsA then "B" else "A"
      let transcriptA := if humanIsA then humanTranscript else aiTranscript
      let transcriptB := if humanIsA then aiTranscript else humanTranscript
      let verdictCall : LlmCall :=
        ⟨"judge", verdictPrompt, verdictMessagesFor transcriptA transcriptB⟩
      let verdictRaw := chat verdictCall
      let verdict := computeVerdict parseJson verdictRaw humanLabel
      let _ := aiLabel
      (.final verdict humanTranscript aiTranscript humanLabel, ai.2 ++ [verdictCall])
    else
      -- Not the last round: ask the judge for the next question.
      let judgeMessages := buildInterviewMessages humanTranscript
      let nextCall : LlmCall := ⟨"judge", interviewPrompt, judgeMessages⟩
      let nextQuestion := chat nextCall
      (.next nextQuestion (req.round + 1) humanTranscript, [nextCall])

/-- The POST /api/start handler of server.js: asks the judge for an opening
question (biased away from the recent-questions buffer), records it into the
buffer, and responds `\x7b question, round: 1 \x7d`.  Returns the response, the
updated buffer, and the model calls made. -/
def apiStart (chat : ChatOracle) (recentFirstQuestions : List String) :
    (String × Int) × List String × List LlmCall :=
  let messages : List Message := [⟨"user", buildOpeningMessage recentFirstQuestions⟩]
  let call : LlmCall := ⟨"judge", interviewPrompt, messages⟩
  let question := chat call
  let recent := recordFirstQuestion recentFirstQuestions question
  ((question, 1), recent, [call])

/-- Per-role configuration of the role-based LLM adapter: a (provider, model,
temperature) triple. -/
structure RoleConfig where
  provider : String
  model : String
  temperature : ℚ
deriving DecidableEq

/-- The environment variables read by the role-based adapter.  `none` models an
unset variable (and, for the temperatures, a value whose parseFloat is NaN; a
parsed 0 is falsy in JS and also falls back to the default, handled in
`orDefaultTemp`). -/
structure LlmEnv where
  JUDGE_PROVIDER : Option String
  JUDGE_MODEL : Option String
  JUDGE_TEMPERATURE : Option ℚ
  RESPONDENT_PROVIDER : Option String
  RESPONDENT_MODEL : Option String
  RESPONDENT_TEMPERATURE : Option ℚ

/-- JS `parseFloat(env) || 0.7`: the default applies when the variable is unset,
unparseable, or parses to the falsy 0. -/
def orDefaultTemp : Option ℚ → ℚ
  | some t => if t = 0 then 7 / 10 else t
  | none => 7 / 10

/-- The `config` table of the role-based llm.js: each role resolves to a
(provider, model, temperature) triple from the environment, with documented
defaults. -/
def llmConfig (env : LlmEnv) : String → Option RoleConfig
  | "judge" =>
      some ⟨env.JUDGE_PROVIDER.getD "openai", env.JUDGE_MODEL.getD "gpt-4o-mini",
            orDefaultTemp env.JUDGE_TEMPERATURE⟩
  | "respondent" =>
      some ⟨env.RESPONDENT_PROVIDER.getD "openai",
            env.RESPONDENT_MODEL.getD "gpt-4o-mini",
            orDefaultTemp env.RESPONDENT_TEMPERATURE⟩
  | _ => none

/-- The two hosted chat-completion backends, modelled as oracles taking the
model name, the system prompt, the message list and the temperature. -/
structure Backends where
  openai : String → String → List Message → ℚ → String
  anthropic : String → String → List Message → ℚ → String

/-- The `providers` table of the role-based llm.js.  The mock returns a canned
string; openai passes the temperature through; anthropic caps it at 1.0
(`Math.min(temperature, 1.0)`). -/
def providerImpl (b : Backends) :
    String → Option (String → String → List Message → ℚ → String)
  | "mock" => some (fun _ _ _ _ => "This is a mock LLM response.")
  | "openai" => some (fun model sys msgs temp => b.openai model sys msgs temp)
  | "anthropic" => some (fun model sys msgs temp => b.anthropic model sys msgs (min temp 1))
  | _ => none

/-- The public `chat(role, systemPrompt, messages)` of the role-based llm.js:
the role selects its configured (provider, model, temperature) triple, the
provider name selects the backend, and the call is dispatched with that model
and temperature.  An unknown role or provider throws (modelled as `.error`). -/
def llmChat (b : Backends) (env : LlmEnv) (role systemPrompt : String)
    (messages : List Message) : Except String String :=
  match llmConfig env role with
  | none => .error ("Unknown role: " ++ role)
  | some c =>
    match providerImpl b c.provider with
    | none => .error ("Unknown LLM provider: " ++ c.provider)
    | some impl => .ok (impl c.model systemPrompt messages c.temperature)

/-- The updated transcript after the handler attaches the human's answer: all
entries except the last are untouched; the last keeps its question and gains
the answer. -/
def updatedOf (req : AnswerRequest) : List Round :=
  req.history.dropLast ++ [⟨(req.history.getLastD ⟨"", none⟩).question, some req.humanAnswer⟩]

/-- The seed question of the final-round branch, `humanTranscript[0].question`. -/
def firstQuestionOf (req : AnswerRequest) : String :=
  ((updatedOf req).headD ⟨"", none⟩).question

/-- The AI transcript produced in the final-round branch. -/
def aiTranscriptOf (chat : ChatOracle) (req : AnswerRequest) : List Round :=
  (runAiInterview chat (firstQuestionOf req)).1

/-- The model calls of the AI interview in the final-round branch. -/
def aiTraceOf (chat : ChatOracle) (req : AnswerRequest) : List LlmCall :=
  (runAiInterview chat (firstQuestionOf req)).2

/-- The verdict call issued in the final-round branch. -/
def verdictCallOf (chat : ChatOracle) (humanIsA : Bool) (req : AnswerRequest) : LlmCall :=
  ⟨"judge", verdictPrompt,
   verdictMessagesFor
     (if humanIsA then updatedOf req else aiTranscriptOf chat req)
     (if humanIsA then aiTranscriptOf chat req else updatedOf req)⟩

theorem attachAnswer_spec (history : List Round) (a : String) (hne : history ≠ []) :
    attachAnswer history a =
      some (history.dropLast
            ++ [⟨(history.getLastD ⟨"", none⟩).question, some a⟩]) := by
  induction history with
  | nil => exact absurd rfl hne
  | cons r rest ih =>
    cases rest with
    | nil => rfl
    | cons s t =>
      have h' : s :: t ≠ [] := by simp
      simp only [attachAnswer, ih h', Option.map_some]
      simp [List.dropLast_cons₂, List.getLastD_cons]

theorem apiAnswer_final_eq (chat : ChatOracle) (parseJson : String → Option Verdict)
    (humanIsA : Bool) (req : AnswerRequest)
    (hne : req.history ≠ []) (hr : 3 ≤ req.round) :
    apiAnswer chat parseJson humanIsA req =
      (.final (computeVerdict parseJson (chat (verdictCallOf chat humanIsA req))
                (if humanIsA then "A" else "B"))
              (updatedOf req) (aiTranscriptOf chat req)
              (if humanIsA then "A" else "B"),
       aiTraceOf chat req ++ [verdictCallOf chat humanIsA req]) := by
  unfold apiAnswer
  simp only [attachAnswer_spec req.history req.humanAnswer hne, if_pos hr]
  simp only [updatedOf, firstQuestionOf, aiTranscriptOf, aiTraceOf, verdictCallOf]

theorem apiAnswer_next_eq (chat : ChatOracle) (parseJson : String → Option Verdict)
    (humanIsA : Bool) (req : AnswerRequest)
    (hne : req.history ≠ []) (hlt : req.round < 3) :
    apiAnswer chat parseJson humanIsA req =
      (.next (chat ⟨"judge", interviewPrompt, buildInterviewMessages (updatedOf req)⟩)
             (req.round + 1) (updatedOf req),
       [⟨"judge", interviewPrompt, buildInterviewMessages (updatedOf req)⟩]) := by
  unfold apiAnswer
  simp only [attachAnswer_spec req.history req.humanAnswer hne,
             if_neg (not_le.mpr hlt)]
  simp only [updatedOf]

theorem runAiInterview_transcript_length (chat : ChatOracle) (fq : String) :
    (runAiInterview chat fq).1.length = 3 := by
  simp [runAiInterview, aiStep]

theorem runAiInterview_head (chat : ChatOracle) (fq : String) :
    (runAiInterview chat fq).1.headD ⟨"", none⟩ =
      ⟨fq, some (chat ⟨"respondent", respondentPrompt, [⟨"user", fq⟩]⟩)⟩ := by
  simp [runAiInterview, aiStep]

theorem runAiInterview_trace_roles (chat : ChatOracle) (fq : String) :
    (runAiInterview chat fq).2.map LlmCall.role =
      ["respondent", "judge", "respondent", "judge", "respondent"] := by
  simp [runAiInterview, aiStep]

theorem runAiInterview_trace_head (chat : ChatOracle) (fq : String) :
    (runAiInterview chat fq).2.headD ⟨"", "", []⟩ =
      ⟨"respondent", respondentPrompt, [⟨"user", fq⟩]⟩ := by
  simp [runAiInterview, aiStep]

theorem updatedOf_length (req : AnswerRequest) (hne : req.history ≠ []) :
    (updatedOf req).length = req.history.length := by
  have h := List.length_pos.mpr hne
  simp only [updatedOf, List.length_append, List.length_dropLast,
             List.length_cons, List.length_nil]
  omega

theorem updatedOf_getElem?_of_lt (req : AnswerRequest) (i : Nat)
    (hi : i + 1 < req.history.length) :
    (updatedOf req)[i]? = req.history[i]? := by
  have hd : i < req.history.dropLast.length := by
    simp only [List.length_dropLast]; omega
  have hh : i < req.history.length := by omega
  rw [updatedOf, List.getElem?_append_left hd, List.getElem?_eq_getElem hd,
      List.getElem?_eq_getElem hh]
  exact congrArg some (List.getElem_dropLast _ _ _)

theorem updatedOf_last (req : AnswerRequest) (hne : req.history ≠ []) :
    (updatedOf req)[req.history.length - 1]? =
      some ⟨(req.history.getLastD ⟨"", none⟩).question, some req.humanAnswer⟩ := by
  have h := List.length_pos.mpr hne
  have hlen : req.history.dropLast.length = req.history.length - 1 := by
    simp [List.length_dropLast]
  rw [updatedOf, List.getElem?_append_right (by omega)]
  rw [hlen]
  simp

theorem history_last_getElem? (req : AnswerRequest) (hne : req.history ≠ []) :
    req.history[req.history.length - 1]? =
      some (req.history.getLastD ⟨"", none⟩) := by
  rw [List.getLastD_eq_getLast?, ← List.getLast?_eq_getElem?]
  cases hq : req.history.getLast? with
  | none => exact absurd (List.getLast?_eq_none_iff.mp hq) hne
  | some v => rfl

theorem updatedOf_question_pointwise (req : AnswerRequest) (hne : req.history ≠ [])
    (i : Nat) :
    ((updatedOf req)[i]?).map Round.question =
      (req.history[i]?).map Round.question := by
  rcases lt_trichotomy (i + 1) req.history.length with hlt | heq | hgt
  · rw [updatedOf_getElem?_of_lt req i hlt]
  · have : i = req.history.length - 1 := by omega
    subst this
    rw [updatedOf_last req hne, history_last_getElem? req hne]
    rfl
  · have h1 : req.history.length ≤ i := by omega
    have h2 : (updatedOf req).length ≤ i := by rw [updatedOf_length req hne]; omega
    rw [List.getElem?_eq_none h1, List.getElem?_eq_none h2]

theorem recordFirstQuestion_foldl :
    ∀ (qs : List String) (buf : List String), buf.length ≤ RECENT_QUESTIONS_MAX →
      qs.foldl recordFirstQuestion buf
        = (buf ++ qs).drop (buf.length + qs.length - RECENT_QUESTIONS_MAX) := by
  intro qs
  induction qs with
  | nil =>
    intro buf hbuf
    simp only [List.foldl_nil, List.append_nil, List.length_nil, Nat.add_zero,
               Nat.sub_eq_zero_of_le hbuf, List.drop_zero]
  | cons q qs ih =>
    intro buf hbuf
    rw [List.foldl_cons]
    by_cases h : RECENT_QUESTIONS_MAX < (buf ++ [q]).length
    · have hb5 : buf.length = RECENT_QUESTIONS_MAX := by
        simp only [List.length_append, List.length_cons, List.length_nil] at h
        omega
      cases buf with
      | nil => simp [RECENT_QUESTIONS_MAX] at hb5
      | cons b0 bt =>
        have hrec : recordFirstQuestion (b0 :: bt) q = bt ++ [q] := by
          simp only [recordFirstQuestion]
          rw [if_pos h]
          rfl
        have hbt : bt.length = RECENT_QUESTIONS_MAX - 1 := by
          simp only [List.length_cons] at hb5
          omega
        have hlen' : (bt ++ [q]).length ≤ RECENT_QUESTIONS_MAX := by
          simp only [List.length_append, List.length_cons, List.length_nil, hbt,
                     RECENT_QUESTIONS_MAX]
          omega
        rw [hrec, ih (bt ++ [q]) hlen']
        have e1 : (bt ++ [q]).length + qs.length - RECENT_QUESTIONS_MAX = qs.length := by
          simp only [List.length_append, List.length_cons, List.length_nil, hbt,
                     RECENT_QUESTIONS_MAX]
          omega
        have e2 : (b0 :: bt).length + (q :: qs).length - RECENT_QUESTIONS_MAX
            = qs.length + 1 := by
          simp only [List.length_cons, hbt, RECENT_QUESTIONS_MAX]
          omega
        rw [e1, e2, List.append_assoc, List.singleton_append, List.cons_append,
            List.drop_succ_cons]
    · have hrec : recordFirstQuestion buf q = buf ++ [q] := by
        simp only [recordFirstQuestion]
        rw [if_neg h]
      have hlen' : (buf ++ [q]).length ≤ RECENT_QUESTIONS_MAX := not_lt.mp h
      rw [hrec, ih (buf ++ [q]) hlen']
      rw [List.append_assoc, List.singleton_append]
      congr 1
      simp only [List.length_append, List.length_cons, List.length_nil]
      omega

/-- Projection: is the response the completed-game (200, final) body. -/
def AnswerResponse.isFinal : AnswerResponse → Bool
  | .final _ _ _ _ => true
  | _ => false

/-- Projection: the humanTranscript of a final response (empty otherwise). -/
def AnswerResponse.humanTranscript : AnswerResponse → List Round
  | .final _ hT _ _ => hT
  | _ => []

/-- Projection: the aiTranscript of a final response (empty otherwise). -/
def AnswerResponse.aiTranscript : AnswerResponse → List Round
  | .final _ _ aT _ => aT
  | _ => []

/-- Projection: the verdict of a final response. -/
def AnswerResponse.verdict? : AnswerResponse → Option Verdict
  | .final v _ _ _ => some v
  | _ => none

/-- Projection: the humanLabel of a final response. -/
def AnswerResponse.label? : AnswerResponse → Option String
  | .final _ _ _ l => some l
  | _ => none

/-- The roles of the model calls of the AI interview of the final-round branch:
a respondent call for the reused first question, then alternating judge
(follow-up question) and respondent (answer) calls — two judge calls in all. -/
theorem aiTraceOf_roles (chat : ChatOracle) (req : AnswerRequest) :
    (aiTraceOf chat req).map LlmCall.role =
      ["respondent", "judge", "respondent", "judge", "respondent"] :=
  runAiInterview_trace_roles chat (firstQuestionOf req)

/-- Concrete oracle fixtures used by witnesses and counterexamples. -/
def wChat : ChatOracle := fun _ => "This is a mock LLM response."

/-- A JSON.parse model that always fails (non-JSON model output). -/
def wParse : String → Option Verdict := fun _ => none

/-- A concrete final-round request (round 3, one in-flight round). -/
def wReqFinal : AnswerRequest := ⟨"a", 3, [⟨"q", none⟩]⟩

/-- A concrete non-final request (round 1, one in-flight round). -/
def wReqNext : AnswerRequest := ⟨"a", 1, [⟨"q", none⟩]⟩

/-- A concrete non-final request with two rounds of history. -/
def wReqTwo : AnswerRequest := ⟨"a2", 2, [⟨"q1", some "a1"⟩, ⟨"q2", none⟩]⟩

/-- C7: the recent-questions memory is a bounded FIFO of capacity 5: recording a
sequence of opening questions into the initially empty buffer leaves exactly the
most recent min(n, 5) questions, in chronological order, the oldest evicted
first — so after 6 recordings only the most recent 5 remain. -/
theorem c7_recent_questions_fifo (qs : List String) :
    qs.foldl recordFirstQuestion []
        = qs.drop (qs.length - RECENT_QUESTIONS_MAX)
    ∧ (qs.foldl recordFirstQuestion []).length
        = min qs.length RECENT_QUESTIONS_MAX := by
  have h := recordFirstQuestion_foldl qs [] (by simp [RECENT_QUESTIONS_MAX])
  simp only [List.nil_append, List.length_nil, Nat.zero_add] at h
  refine ⟨h, ?_⟩
  rw [h, List.length_drop]
  omega

/-- C10: a request with an empty history array does not crash the process: the
attempt to attach the answer to the last history element throws, the catch
branch answers status 500 with the fixed generic message, and no model call is
made. -/
theorem c10_empty_history_500 (chat : ChatOracle) (parseJson : String → Option Verdict)
    (humanIsA : Bool) (humanAnswer : String) (round : Int) :
    apiAnswer chat parseJson humanIsA ⟨humanAnswer, round, []⟩ =
      (.err500 "Something went wrong. Try again.", []) := rfl

/-- C6: a non-final request (round < 3) with non-empty history attaches the
answer to the last history entry, invokes the judge once with the full updated
history formatted by buildInterviewMessages, and answers
with the next question, round + 1 and the updated history. -/
theorem c6_advance_round (chat : ChatOracle) (parseJson : String → Option Verdict)
    (humanIsA : Bool) (req : AnswerRequest)
    (hne : req.history ≠ []) (hlt : req.round < 3) :
    apiAnswer chat parseJson humanIsA req =
      (.next (chat ⟨"judge", interviewPrompt, buildInterviewMessages (updatedOf req)⟩)
             (req.round + 1) (updatedOf req),
       [⟨"judge", interviewPrompt, buildInterviewMessages (updatedOf req)⟩])
    ∧ updatedOf req =
        req.history.dropLast
          ++ [⟨(req.history.getLastD ⟨"", none⟩).question, some req.humanAnswer⟩] :=
  ⟨apiAnswer_next_eq chat parseJson humanIsA req hne hlt, rfl⟩

/-- Witness for C6 at a concrete round-1 request. -/
theorem c6_advance_round_witness :
    (apiAnswer wChat wParse true wReqNext =
      (.next (wChat ⟨"judge", interviewPrompt, buildInterviewMessages (updatedOf wReqNext)⟩)
             (wReqNext.round + 1) (updatedOf wReqNext),
       [⟨"judge", interviewPrompt, buildInterviewMessages (updatedOf wReqNext)⟩])
    ∧ updatedOf wReqNext =
        wReqNext.history.dropLast
          ++ [⟨(wReqNext.history.getLastD ⟨"", none⟩).question, some wReqNext.humanAnswer⟩]) :=
  c6_advance_round wChat wParse true wReqNext (by decide) (by decide)

/-- C5 counterexample: on a concrete final-round request the sequential chain
has 6 outbound model calls, not the 3 + 3 + 1 = 7 the claim requires (the AI
interview makes only 2 judge calls because round 0 reuses the seeded
question). -/
theorem c5_call_chain_counterexample :
    ((apiAnswer wChat wParse true wReqFinal).2).length = 6
    ∧ ((6 : Nat) ≠ 3 + 3 + 1)
    ∧ (((apiAnswer wChat wParse true wReqFinal).2).map LlmCall.role).count "judge" = 3
    ∧ ((3 : Nat) ≠ 3 + 1) := by
  refine ⟨?_, by decide, ?_, by decide⟩
  · rw [apiAnswer_final_eq wChat wParse true wReqFinal (by decide) (by decide)]
    rfl
  · rw [apiAnswer_final_eq wChat wParse true wReqFinal (by decide) (by decide)]
    rfl

/-- C5 (amended): on the final round the sequential chain of outbound calls is
the AI interview's 1 respondent call for the reused first question followed by
(N−1) = 2 judge/respondent pairs, then the 1 verdict call (a judge-role call) —
6 calls in all; a non-final advance request makes exactly 1 (judge) call; the
exact call chain shows each call is made once, never retried. -/
theorem c5_call_chain_amended (chat : ChatOracle) (parseJson : String → Option Verdict)
    (humanIsA : Bool) (req : AnswerRequest) (hne : req.history ≠ []) :
    (3 ≤ req.round →
      ((apiAnswer chat parseJson humanIsA req).2).map LlmCall.role =
        ["respondent", "judge", "respondent", "judge", "respondent", "judge"])
    ∧ (req.round < 3 →
      ((apiAnswer chat parseJson humanIsA req).2).map LlmCall.role = ["judge"]) := by
  constructor
  · intro hr
    rw [apiAnswer_final_eq chat parseJson humanIsA req hne hr]
    simp only [List.map_append, aiTraceOf_roles]
    rfl
  · intro hlt
    rw [apiAnswer_next_eq chat parseJson humanIsA req hne hlt]
    rfl

/-- Witness for C5 (amended) at concrete final and non-final requests. -/
theorem c5_call_chain_amended_witness :
    ((apiAnswer wChat wParse true wReqFinal).2).map LlmCall.role =
      ["respondent", "judge", "respondent", "judge", "respondent", "judge"]
    ∧ ((apiAnswer wChat wParse true wReqNext).2).map LlmCall.role = ["judge"] :=
  ⟨(c5_call_chain_amended wChat wParse true wReqFinal (by decide)).1 (by decide),
   (c5_call_chain_amended wChat wParse true wReqNext (by decide)).2 (by decide)⟩

/-- C3 counterexample: a final-round request whose client-supplied history has
a single entry completes with a 200 final response whose humanTranscript has
length 1, not 3 — the handler never validates the client transcript's length. -/
theorem c3_transcript_length_counterexample :
    (apiAnswer wChat wParse true wReqFinal).1.isFinal = true
    ∧ ((apiAnswer wChat wParse true wReqFinal).1.humanTranscript).length = 1
    ∧ ((1 : Nat) ≠ 3) := by
  refine ⟨?_, ?_, by decide⟩
  · rw [apiAnswer_final_eq wChat wParse true wReqFinal (by decide) (by decide)]
    rfl
  · rw [apiAnswer_final_eq wChat wParse true wReqFinal (by decide) (by decide)]
    rfl

/-- C3 (amended): for every completed game the aiTranscript has length exactly
3, and the humanTranscript has exactly the length of the client-supplied
history (3 whenever the client follows the protocol); the AI transcript never
exceeds 3. -/
theorem c3_transcript_length_amended (chat : ChatOracle)
    (parseJson : String → Option Verdict) (humanIsA : Bool) (req : AnswerRequest)
    (hne : req.history ≠ []) (hr : 3 ≤ req.round) :
    (apiAnswer chat parseJson humanIsA req).1.isFinal = true
    ∧ ((apiAnswer chat parseJson humanIsA req).1.aiTranscript).length = 3
    ∧ ((apiAnswer chat parseJson humanIsA req).1.humanTranscript).length
        = req.history.length := by
  rw [apiAnswer_final_eq chat parseJson humanIsA req hne hr]
  refine ⟨rfl, ?_, ?_⟩
  · exact runAiInterview_transcript_length chat (firstQuestionOf req)
  · exact updatedOf_length req hne

/-- Witness for C3 (amended) at a concrete completed game. -/
theorem c3_transcript_length_amended_witness :
    (apiAnswer wChat wParse true wReqFinal).1.isFinal = true
    ∧ ((apiAnswer wChat wParse true wReqFinal).1.aiTranscript).length = 3
    ∧ ((apiAnswer wChat wParse true wReqFinal).1.humanTranscript).length
        = wReqFinal.history.length :=
  c3_transcript_length_amended wChat wParse true wReqFinal (by decide) (by decide)

/-- C4: for every completed game the AI transcript's first question equals the
human transcript's first question — runAiInterview reuses the seed verbatim as
round 0's question, and the AI interview's model calls start with the
respondent call on that seed, the judge being invoked only for the two
follow-up rounds. -/
theorem c4_first_question_shared (chat : ChatOracle)
    (parseJson : String → Option Verdict) (humanIsA : Bool) (req : AnswerRequest)
    (hne : req.history ≠ []) (hr : 3 ≤ req.round) :
    (apiAnswer chat parseJson humanIsA req).1.isFinal = true
    ∧ (((apiAnswer chat parseJson humanIsA req).1.aiTranscript).headD ⟨"", none⟩).question
        = (((apiAnswer chat parseJson humanIsA req).1.humanTranscript).headD ⟨"", none⟩).question
    ∧ (aiTraceOf chat req).headD ⟨"", "", []⟩
        = ⟨"respondent", respondentPrompt, [⟨"user", firstQuestionOf req⟩]⟩
    ∧ (aiTraceOf chat req).map LlmCall.role
        = ["respondent", "judge", "respondent", "judge", "respondent"] := by
  rw [apiAnswer_final_eq chat parseJson humanIsA req hne hr]
  refine ⟨rfl, ?_, ?_, aiTraceOf_roles chat req⟩
  · show ((aiTranscriptOf chat req).headD ⟨"", none⟩).question
        = ((updatedOf req).headD ⟨"", none⟩).question
    rw [aiTranscriptOf, runAiInterview_head chat (firstQuestionOf req)]
    rfl
  · exact runAiInterview_trace_head chat (firstQuestionOf req)

/-- Witness for C4 at a concrete completed game. -/
theorem c4_first_question_shared_witness :
    (apiAnswer wChat wParse true wReqFinal).1.isFinal = true
    ∧ (((apiAnswer wChat wParse true wReqFinal).1.aiTranscript).headD ⟨"", none⟩).question
        = (((apiAnswer wChat wParse true wReqFinal).1.humanTranscript).headD ⟨"", none⟩).question
    ∧ (aiTraceOf wChat wReqFinal).headD ⟨"", "", []⟩
        = ⟨"respondent", respondentPrompt, [⟨"user", firstQuestionOf wReqFinal⟩]⟩
    ∧ (aiTraceOf wChat wReqFinal).map LlmCall.role
        = ["respondent", "judge", "respondent", "judge", "respondent"] :=
  c4_first_question_shared wChat wParse true wReqFinal (by decide) (by decide)

/-- A syntactically valid JSON verdict whose humanIs field is neither "A" nor
"B" — a possible raw judge output. -/
def c1VerdictRaw : String :=
  "\x7b\"humanIs\":\"C\",\"analysisA\":\"a\",\"analysisB\":\"b\",\"summary\":\"s\"\x7d"

/-- A chat oracle returning that JSON text for every call. -/
def c1Chat : ChatOracle := fun _ => c1VerdictRaw

/-- The behaviour of `JSON.parse` on that text: it parses, yielding an object
with humanIs = "C". -/
def c1Parse : String → Option Verdict :=
  fun s => if s = c1VerdictRaw then some ⟨"C", "a", "b", "s"⟩ else none

/-- C1 counterexample: when the judge's raw verdict text parses as JSON, the
handler returns the parsed object unvalidated — a completed game (round 3,
status 200) whose verdict has humanIs = "C", which is neither "A" nor "B". -/
theorem c1_humanis_counterexample :
    (apiAnswer c1Chat c1Parse true wReqFinal).1.isFinal = true
    ∧ (apiAnswer c1Chat c1Parse true wReqFinal).1.verdict?
        = some ⟨"C", "a", "b", "s"⟩
    ∧ ("C" ≠ "A") ∧ ("C" ≠ "B") := by decide

/-- C1 (amended): for every completed game the humanLabel in the response is
"A" or "B", and the response verdict is the parse-or-fallback of the judge's
raw text with that label; whenever the fallback is used (raw text fails to
parse) the verdict's humanIs is "A" or "B" — but when the raw text parses, the
parsed humanIs is passed through unvalidated. -/
theorem c1_humanis_amended (chat : ChatOracle) (parseJson : String → Option Verdict)
    (humanIsA : Bool) (req : AnswerRequest)
    (hne : req.history ≠ []) (hr : 3 ≤ req.round) :
    ((apiAnswer chat parseJson humanIsA req).1.label?
        = some (if humanIsA then "A" else "B"))
    ∧ ((if humanIsA then "A" else "B") = "A" ∨ (if humanIsA then "A" else "B") = "B")
    ∧ ((apiAnswer chat parseJson humanIsA req).1.verdict?
        = some (computeVerdict parseJson (chat (verdictCallOf chat humanIsA req))
                 (if humanIsA then "A" else "B")))
    ∧ (parseJson (cleanVerdict (chat (verdictCallOf chat humanIsA req))) = none →
        (computeVerdict parseJson (chat (verdictCallOf chat humanIsA req))
            (if humanIsA then "A" else "B")).humanIs = "A"
        ∨ (computeVerdict parseJson (chat (verdictCallOf chat humanIsA req))
            (if humanIsA then "A" else "B")).humanIs = "B") := by
  refine ⟨?_, ?_, ?_, ?_⟩
  · rw [apiAnswer_final_eq chat parseJson humanIsA req hne hr]
    rfl
  · cases humanIsA <;> simp
  · rw [apiAnswer_final_eq chat parseJson humanIsA req hne hr]
    rfl
  · intro hfail
    unfold computeVerdict
    rw [hfail]
    cases humanIsA <;> simp

/-- Witness for C1 (amended) at a concrete completed game with unparseable
verdict text. -/
theorem c1_humanis_amended_witness :
    ((apiAnswer wChat wParse true wReqFinal).1.label?
        = some (if true then "A" else "B"))
    ∧ ((if true then "A" else "B") = "A" ∨ (if true then "A" else "B") = "B")
    ∧ ((apiAnswer wChat wParse true wReqFinal).1.verdict?
        = some (computeVerdict wParse (wChat (verdictCallOf wChat true wReqFinal))
                 (if true then "A" else "B")))
    ∧ (wParse (cleanVerdict (wChat (verdictCallOf wChat true wReqFinal))) = none →
        (computeVerdict wParse (wChat (verdictCallOf wChat true wReqFinal))
            (if true then "A" else "B")).humanIs = "A"
        ∨ (computeVerdict wParse (wChat (verdictCallOf wChat true wReqFinal))
            (if true then "A" else "B")).humanIs = "B") :=
  c1_humanis_amended wChat wParse true wReqFinal (by decide) (by decide)

/-- C2: on the final round the response is always the 200 final body — a parse
failure of the judge's verdict text never fails the request — and whenever the
cleaned raw text fails to parse, the verdict is the fallback: humanIs equals
the true human label of this game, analysisA holds the raw unparsed text,
analysisB is empty and summary is empty. -/
theorem c2_fallback_verdict (chat : ChatOracle) (parseJson : String → Option Verdict)
    (humanIsA : Bool) (req : AnswerRequest)
    (hne : req.history ≠ []) (hr : 3 ≤ req.round) :
    ((apiAnswer chat parseJson humanIsA req).1 =
        .final (computeVerdict parseJson (chat (verdictCallOf chat humanIsA req))
                 (if humanIsA then "A" else "B"))
               (updatedOf req) (aiTranscriptOf chat req)
               (if humanIsA then "A" else "B"))
    ∧ (parseJson (cleanVerdict (chat (verdictCallOf chat humanIsA req))) = none →
        computeVerdict parseJson (chat (verdictCallOf chat humanIsA req))
            (if humanIsA then "A" else "B")
          = ⟨if humanIsA then "A" else "B",
             chat (verdictCallOf chat humanIsA req), "", ""⟩) := by
  constructor
  · rw [apiAnswer_final_eq chat parseJson humanIsA req hne hr]
  · intro hfail
    unfold computeVerdict
    rw [hfail]

/-- Witness for C2 at a concrete completed game whose verdict text fails to
parse. -/
theorem c2_fallback_verdict_witness :
    ((apiAnswer wChat wParse true wReqFinal).1 =
        .final (computeVerdict wParse (wChat (verdictCallOf wChat true wReqFinal))
                 (if true then "A" else "B"))
               (updatedOf wReqFinal) (aiTranscriptOf wChat wReqFinal)
               (if true then "A" else "B"))
    ∧ (wParse (cleanVerdict (wChat (verdictCallOf wChat true wReqFinal))) = none →
        computeVerdict wParse (wChat (verdictCallOf wChat true wReqFinal))
            (if true then "A" else "B")
          = ⟨if true then "A" else "B",
             wChat (verdictCallOf wChat true wReqFinal), "", ""⟩) :=
  c2_fallback_verdict wChat wParse true wReqFinal (by decide) (by decide)

/-- The client-visible transcript of a 200 response: the `history` field of a
non-final response, or the `humanTranscript` field of a final one. -/
def AnswerResponse.transcript? : AnswerResponse → Option (List Round)
  | .next _ _ h => some h
  | .final _ hT _ _ => some hT
  | .err500 _ => none

/-- C9: the only change the handler makes to the client-supplied history is the
answer field of its last entry: the transcript echoed in the response (history
or humanTranscript) is the input history with the same length, pointwise equal
question fields, all entries before the last unchanged, and the last entry's
answer set to humanAnswer. -/
theorem c9_frame_effect (chat : ChatOracle) (parseJson : String → Option Verdict)
    (humanIsA : Bool) (req : AnswerRequest) (hne : req.history ≠ []) :
    ((apiAnswer chat parseJson humanIsA req).1.transcript? = some (updatedOf req))
    ∧ (updatedOf req).length = req.history.length
    ∧ (∀ i : Nat, ((updatedOf req)[i]?).map Round.question
        = (req.history[i]?).map Round.question)
    ∧ (∀ i : Nat, i + 1 < req.history.length → (updatedOf req)[i]? = req.history[i]?)
    ∧ (updatedOf req)[req.history.length - 1]?
        = some ⟨(req.history.getLastD ⟨"", none⟩).question, some req.humanAnswer⟩ := by
  refine ⟨?_, updatedOf_length req hne, updatedOf_question_pointwise req hne,
          fun i hi => updatedOf_getElem?_of_lt req i hi, updatedOf_last req hne⟩
  by_cases hr : 3 ≤ req.round
  · rw [apiAnswer_final_eq chat parseJson humanIsA req hne hr]
    rfl
  · rw [apiAnswer_next_eq chat parseJson humanIsA req hne (not_le.mp hr)]
    rfl

/-- Witness for C9 at a concrete two-round request, index 0 instantiated. -/
theorem c9_frame_effect_witness :
    ((apiAnswer wChat wParse true wReqTwo).1.transcript? = some (updatedOf wReqTwo))
    ∧ (updatedOf wReqTwo).length = wReqTwo.history.length
    ∧ (((updatedOf wReqTwo)[0]?).map Round.question
        = (wReqTwo.history[0]?).map Round.question)
    ∧ ((updatedOf wReqTwo)[0]? = wReqTwo.history[0]?)
    ∧ ((updatedOf wReqTwo)[wReqTwo.history.length - 1]?
        = some ⟨(wReqTwo.history.getLastD ⟨"", none⟩).question, some wReqTwo.humanAnswer⟩) :=
  ⟨(c9_frame_effect wChat wParse true wReqTwo (by decide)).1,
   (c9_frame_effect wChat wParse true wReqTwo (by decide)).2.1,
   (c9_frame_effect wChat wParse true wReqTwo (by decide)).2.2.1 0,
   (c9_frame_effect wChat wParse true wReqTwo (by decide)).2.2.2.1 0 (by decide),
   (c9_frame_effect wChat wParse true wReqTwo (by decide)).2.2.2.2⟩

/-- Resolution of the judge role in the adapter's config table. -/
theorem llmConfig_judge (env : LlmEnv) :
    llmConfig env "judge" =
      some ⟨env.JUDGE_PROVIDER.getD "openai", env.JUDGE_MODEL.getD "gpt-4o-mini",
            orDefaultTemp env.JUDGE_TEMPERATURE⟩ := rfl

/-- Resolution of the respondent role in the adapter's config table. -/
theorem llmConfig_respondent (env : LlmEnv) :
    llmConfig env "respondent" =
      some ⟨env.RESPONDENT_PROVIDER.getD "openai",
            env.RESPONDENT_MODEL.getD "gpt-4o-mini",
            orDefaultTemp env.RESPONDENT_TEMPERATURE⟩ := rfl

/-- Concrete backends fixture. -/
def wBackends : Backends :=
  ⟨fun _ _ _ _ => "openai text", fun _ _ _ _ => "anthropic text"⟩

/-- Concrete environment fixture (everything unset, defaults apply). -/
def wEnv : LlmEnv := ⟨none, none, none, none, none, none⟩

/-- C8: the adapter's chat(role, systemPrompt, messages) selects the configured
(provider, model, temperature) triple by role and dispatches the call with that
model and temperature; and every invocation made by the request handlers uses
role "judge" or "respondent". -/
theorem c8_role_selects_config (b : Backends) (env : LlmEnv) (sys : String)
    (msgs : List Message) (role : String)
    (h : role = "judge" ∨ role = "respondent")
    (chat : ChatOracle) (parseJson : String → Option Verdict) (humanIsA : Bool)
    (req : AnswerRequest) (recent : List String) :
    (∃ c : RoleConfig, llmConfig env role = some c ∧
       ∀ impl, providerImpl b c.provider = some impl →
         llmChat b env role sys msgs = .ok (impl c.model sys msgs c.temperature))
    ∧ (∀ call ∈ (apiAnswer chat parseJson humanIsA req).2,
        call.role = "judge" ∨ call.role = "respondent")
    ∧ (∀ call ∈ (apiStart chat recent).2.2,
        call.role = "judge" ∨ call.role = "respondent") := by
  refine ⟨?_, ?_, ?_⟩
  · rcases h with h | h <;> subst h
    · refine ⟨_, llmConfig_judge env, ?_⟩
      intro impl himp
      unfold llmChat
      rw [llmConfig_judge env]
      simp only [himp]
    · refine ⟨_, llmConfig_respondent env, ?_⟩
      intro impl himp
      unfold llmChat
      rw [llmConfig_respondent env]
      simp only [himp]
  · intro call hc
    by_cases hne : req.history = []
    · have hzero : apiAnswer chat parseJson humanIsA req =
          (.err500 "Something went wrong. Try again.", []) := by
        unfold apiAnswer
        rw [hne]
        rfl
      rw [hzero] at hc
      simp at hc
    · by_cases hr : 3 ≤ req.round
      · rw [apiAnswer_final_eq chat parseJson humanIsA req hne hr] at hc
        rcases List.mem_append.mp hc with h1 | h2
        · have hmem : call.role ∈ (aiTraceOf chat req).map LlmCall.role :=
            List.mem_map_of_mem _ h1
          rw [aiTraceOf_roles chat req] at hmem
          simp only [List.mem_cons, List.not_mem_nil, or_false] at hmem
          rcases hmem with h | h | h | h | h <;>
            first
              | exact Or.inl h
              | exact Or.inr h
        · have hcall : call = verdictCallOf chat humanIsA req := by
            simpa using h2
          rw [hcall]
          exact Or.inl rfl
      · rw [apiAnswer_next_eq chat parseJson humanIsA req hne (not_le.mp hr)] at hc
        have hcall : call =
            ⟨"judge", interviewPrompt, buildInterviewMessages (updatedOf req)⟩ := by
          simpa using hc
        rw [hcall]
        exact Or.inl rfl
  · intro call hc
    have hcall : call = ⟨"judge", interviewPrompt,
        [⟨"user", buildOpeningMessage recent⟩]⟩ := by
      simpa [apiStart] using hc
    rw [hcall]
    exact Or.inl rfl

/-- Witness for C8 with role "judge" and concrete backends, environment,
handler oracles and requests. -/
theorem c8_role_selects_config_witness :
    (∃ c : RoleConfig, llmConfig wEnv "judge" = some c ∧
       ∀ impl, providerImpl wBackends c.provider = some impl →
         llmChat wBackends wEnv "judge" "sys" [] = .ok (impl c.model "sys" [] c.temperature))
    ∧ (∀ call ∈ (apiAnswer wChat wParse true wReqFinal).2,
        call.role = "judge" ∨ call.role = "respondent")
    ∧ (∀ call ∈ (apiStart wChat []).2.2,
        call.role = "judge" ∨ call.role = "respondent") :=
  c8_role_selects_config wBackends wEnv "sys" [] "judge" (Or.inl rfl)
    wChat wParse true wReqFinal []
